import Mathlib

/-!
Verification development for the places-listing pipeline (`places_core.py`).

The Python source is shallowly embedded: pure functions become Lean
functions over `String`/`List`/`Option`; Python `float` ratings are
modelled as exact rationals `ℚ` (the pipeline only compares and prints
them, it never does float arithmetic); network calls are modelled by an
explicit oracle argument giving the HTTP response for each request, and
raised exceptions by `Except`; the system clock read by
`pick_today_hours` becomes an explicit weekday-index argument `Fin 7`.
-/

namespace PlacesCore

/-! ### Python string primitives used by the source -/

/-- Model of Python `str.lower()` (the source only lowercases ASCII tags). -/
def pyLower (s : String) : String := ⟨s.data.map Char.toLower⟩

/-- Model of Python `str.strip()`: drop whitespace from both ends. -/
def pyStripList (l : List Char) : List Char :=
  ((l.dropWhile Char.isWhitespace).reverse.dropWhile Char.isWhitespace).reverse

/-- Model of Python `str.strip()` on strings. -/
def pyStrip (s : String) : String := ⟨pyStripList s.data⟩

/-- Left-to-right, non-overlapping replacement of every occurrence of `old`,
run on fuel so that the recursion is structural (each step consumes at least
one character, so `fuel = length` always suffices). -/
def replaceFuel (old new : List Char) : Nat → List Char → List Char
  | _, [] => []
  | 0, l => l
  | fuel + 1, c :: rest =>
    if old ≠ [] ∧ old.isPrefixOf (c :: rest) then
      new ++ replaceFuel old new fuel (rest.drop (old.length - 1))
    else
      c :: replaceFuel old new fuel rest

/-- Model of Python `str.replace(old, new)` on character lists. -/
def replaceList (old new l : List Char) : List Char := replaceFuel old new l.length l

/-- Model of Python `str.replace(old, new)` on strings. -/
def pyReplace (s old new : String) : String := ⟨replaceList old.data new.data s.data⟩

/-- Model of Python `s.split(":", 1)[1]`: everything after the first colon. -/
def afterFirstColon (s : String) : String :=
  ⟨(s.data.dropWhile (fun c => c ≠ ':')).tail⟩

/-! ### Locale formatting utilities (`places_core.py` lines 50-101) -/

/-- `AR_WEEKDAYS` from the source: Arabic weekday names, Monday first. -/
def AR_WEEKDAYS : List String :=
  ["الاثنين", "الثلاثاء", "الأربعاء", "الخميس", "الجمعة", "السبت", "الأحد"]

/-- `map_price_level_to_range` from the source. -/
def map_price_level_to_range (level : Option Int) : String :=
  match level with
  | none => "غير محدد"
  | some l =>
    if l = 0 then "غير محدد"
    else if l = 1 then "25 – 50 ر.س"
    else if l = 2 then "50 – 75 ر.س"
    else if l = 3 then "75 – 120 ر.س"
    else if 4 ≤ l then "120+ ر.س"
    else "غير محدد"

/-- `guess_service_options` from the source: membership of known tags in the
lowercased tag list (Python builds a `set`; set membership agrees with list
membership) decides which fixed labels appear, in a fixed order. -/
def guess_service_options (types : List String) : List String :=
  let tset := types.map pyLower
  (if tset.contains "meal_delivery" then ["توصيل"] else []) ++
  (if tset.contains "meal_takeaway" || tset.contains "meal_take-away" then ["استلام"] else []) ++
  (if tset.contains "restaurant" then ["جلوس في المطعم"] else [])

/-- The replacement chain of `normalize_time_string` (AM/PM markers to the
Arabic ص/م markers, ASCII hyphen to an en dash). -/
def applyTimeReplacements (times : String) : String :=
  pyReplace (pyReplace (pyReplace (pyReplace (pyReplace times "AM" "ص") "PM" "م") "am" "ص") "pm" "م") "-" "–"

/-- `normalize_time_string` from the source: if the string has a colon, keep
only what follows the first colon, strip it, then apply the replacements. -/
def normalize_time_string (s : String) : String :=
  let times := if s.data.contains ':' then pyStrip (afterFirstColon s) else pyStrip s
  applyTimeReplacements times

/-- `pick_today_hours` from the source, with the system clock's
`datetime.datetime.now().weekday()` (Monday = 0) passed explicitly. -/
def pick_today_hours (today_idx : Fin 7) (weekday_desc : List String) : String × List String :=
  if weekday_desc.isEmpty then ("—", [])
  else
    let today_ar := AR_WEEKDAYS.getD today_idx.val ""
    let line := if today_idx.val < weekday_desc.length then weekday_desc.getD today_idx.val ""
                else weekday_desc.getD 0 ""
    let today_times := normalize_time_string line
    let full_week := weekday_desc.enum.map (fun pr =>
      (AR_WEEKDAYS.getD (if pr.1 < AR_WEEKDAYS.length then pr.1 else 0) "") ++ ": " ++
        normalize_time_string pr.2)
    (today_ar ++ ": " ++ today_times, full_week)

/-! ### HTML escaping (Python `html.escape`) and the card renderer -/

/-- Per-character translation of Python `html.escape(s, quote=True)`:
`&`, `<`, `>`, `"` and the apostrophe (code point 39) become entities.
Python applies five sequential `str.replace` passes, `&` first; since no
later pass's target occurs in an earlier pass's replacement text, the
sequential passes coincide with this per-character map. -/
def escapeChar (c : Char) : String :=
  if c = '&' then "&amp;"
  else if c = '<' then "&lt;"
  else if c = '>' then "&gt;"
  else if c = '"' then "&quot;"
  else if c.toNat = 39 then "&#x27;"
  else String.singleton c

/-- `html.escape` on a character list. -/
def escapeChars : List Char → List Char
  | [] => []
  | c :: rest => (escapeChar c).data ++ escapeChars rest

/-- Model of Python `html.escape(s, quote=True)`. -/
def html_escape (s : String) : String := ⟨escapeChars s.data⟩

/-- Round a rational to the nearest integer, ties to even — the rounding
used when Python formats a number with `:.1f`.  (The source's ratings are
floats holding one-decimal values such as `4.5`; they are modelled as exact
rationals, which agree with float formatting on all such values.) -/
def roundHalfEven (q : ℚ) : Int :=
  let f := ⌊q⌋
  if q - f < 1/2 then f
  else if (1 : ℚ)/2 < q - f then f + 1
  else if f % 2 = 0 then f else f + 1

/-- Model of the f-string field `{rating:.1f}`. -/
def formatFix1 (q : ℚ) : String :=
  let n := roundHalfEven (q * 10)
  let sign := if n < 0 then "-" else ""
  sign ++ toString (n.natAbs / 10) ++ "." ++ toString (n.natAbs % 10)

/-- A normalized item, exactly the dict assembled by
`make_items_from_places` (`places_core.py` lines 292-308). -/
structure Item where
  name : String
  address : String
  phone : String
  price_range : String
  website : String
  maps_uri : String
  today_hours : String
  full_hours : List String
  service_options : List String
  family_friendly : String
  signature_dish : String
  crowd_note : String
  rating : Option ℚ
  rating_count : Option Int
  types : List String
deriving DecidableEq, Repr

/-- `build_html_item` from the source, on normalized items (every key the
Python `p.get` calls look up is present on such dicts, so the `get`
defaults never fire; string truthiness becomes an emptiness test). -/
def build_html_item (p : Item) : String :=
  let name := html_escape p.name
  let address := html_escape p.address
  let phone := html_escape p.phone
  let price_range := html_escape p.price_range
  let website := p.website
  let maps_uri := p.maps_uri
  let today_hours := html_escape p.today_hours
  let service_str := if p.service_options.isEmpty then "—" else String.intercalate "، " p.service_options
  let family := html_escape p.family_friendly
  let signature := if p.signature_dish = "" then "—" else html_escape p.signature_dish
  let crowd := html_escape p.crowd_note
  let rating_html :=
    match p.rating, p.rating_count with
    | some r, some rc =>
        "<div class=\"text-sm\" style=\"color:#6b7280;\">التقييم: " ++ formatFix1 r ++
          " / 5 (بناءً على " ++ toString rc ++ " مراجعة)</div>"
    | _, _ => ""
  let website_html :=
    if website = "" then "—"
    else "<a href=\"" ++ website ++ "\" target=\"_blank\" rel=\"nofollow noopener\">زيارة الموقع</a>"
  let maps_html :=
    if maps_uri = "" then "—"
    else "<a href=\"" ++ maps_uri ++ "\" target=\"_blank\" rel=\"nofollow noopener\">فتح في خرائط Google</a>"
  let hours_details :=
    if p.full_hours.isEmpty then ""
    else
      "\n<details>\n  <summary>أوقات العمل (الأسبوع كامل)</summary>\n  <ul>\n    " ++
        String.join (p.full_hours.map (fun line => "<li>" ++ html_escape line ++ "</li>")) ++
        "\n  </ul>\n</details>\n"
  "\n<div class=\"restaurant-card\" itemscope itemtype=\"https://schema.org/Restaurant\" dir=\"rtl\" style=\"border:1px solid #e5e7eb;border-radius:12px;padding:16px;margin-bottom:16px;\">\n  <h3 itemprop=\"name\" style=\"margin:0 0 8px 0;font-size:20px;\">" ++
    name ++
    "</h3>\n  " ++ rating_html ++
    "\n  <div style=\"line-height:1.9;\">\n    <div><strong>العنوان:</strong> <span itemprop=\"address\">" ++ address ++
    "</span></div>\n    <div><strong>الهاتف:</strong> <a href=\"tel:" ++ phone ++ "\">" ++ phone ++
    "</a></div>\n    <div><strong>الأوقات (اليوم):</strong> " ++ today_hours ++
    "</div>\n    " ++ hours_details ++
    "\n    <div><strong>مناسب للعوائل:</strong> " ++ family ++
    "</div>\n    <div><strong>السعر للشخص:</strong> " ++ price_range ++
    "</div>\n    <div><strong>الطبق المميز:</strong> " ++ signature ++
    "</div>\n    <div><strong>خيارات الخدمة:</strong> " ++ service_str ++
    "</div>\n    <div><strong>أوقات الزحمة:</strong> " ++ crowd ++
    "</div>\n    <div><strong>خرائط Google:</strong> " ++ maps_html ++
    "</div>\n    <div><strong>الموقع الإلكتروني:</strong> " ++ website_html ++
    "</div>\n  </div>\n</div>\n"

/-- `build_post_html` from the source; `now` is the formatted current date
(`datetime.datetime.now().strftime` is modelled as an explicit argument).
The `title` parameter is accepted and unused, as in the source. -/
def build_post_html (now : String) (items : List Item) (title : String) : String :=
  let cards := String.intercalate "\n" (items.map build_html_item)
  "\n<div itemscope itemtype=\"https://schema.org/ItemList\" dir=\"rtl\">\n  <p>آخر تحديث: " ++
    now ++ ". المصدر: خرائط Google.</p>\n  " ++ cards ++ "\n</div>\n"

/-! ### Remote adapters (`places_core.py` lines 16-28, 175-234)

HTTP is modelled by an oracle mapping each request to its response; a
response carries the integer status, the raw body text, and the parsed
JSON body (responses are assumed to be well-formed JSON, which the source
also assumes via `r.json()`). Raised Python exceptions become `Except`
errors carrying the same data the exception message carries. -/

/-- One entry of `CITY_PRESETS`. -/
structure CityPreset where
  lat : ℚ
  lng : ℚ
  radius : ℚ
  regionCode : String
  ar : String
deriving DecidableEq, Repr

/-- `CITY_PRESETS` from the source (a dict with distinct keys, modelled as
an association list). -/
def CITY_PRESETS : List (String × CityPreset) :=
  [("riyadh",   ⟨24.7136, 46.6753, 30000, "SA", "الرياض"⟩),
   ("jeddah",   ⟨21.4858, 39.1925, 30000, "SA", "جدة"⟩),
   ("dammam",   ⟨26.4207, 50.0888, 30000, "SA", "الدمام"⟩),
   ("khobar",   ⟨26.2172, 50.1971, 25000, "SA", "الخبر"⟩),
   ("makkah",   ⟨21.3891, 39.8579, 25000, "SA", "مكة"⟩),
   ("madinah",  ⟨24.5247, 39.5692, 25000, "SA", "المدينة"⟩),
   ("dubai",    ⟨25.2048, 55.2708, 30000, "AE", "دبي"⟩),
   ("abudhabi", ⟨24.4539, 54.3773, 30000, "AE", "أبوظبي"⟩),
   ("sharjah",  ⟨25.3463, 55.4209, 25000, "AE", "الشارقة"⟩)]

/-- An HTTP response: status code, body text, parsed JSON body. -/
structure HttpResp (α : Type) where
  status : Nat
  text : String
  json : α
deriving DecidableEq, Repr

/-- The exceptions the source raises: `ValueError` for an unsupported city
key, `RuntimeError` tagged by the raising function for a non-200 HTTP
status (carrying status code and body text). -/
inductive PlacesError where
  | valueError (cityKey : String)
  | httpError (source : String) (status : Nat) (body : String)
deriving DecidableEq, Repr

/-- The JSON payload `places_search_text` sends. -/
structure SearchPayload where
  textQuery : String
  languageCode : String
  regionCode : String
  maxResultCount : Int
  biasLat : ℚ
  biasLng : ℚ
  biasRadius : ℚ
  includedType : String
deriving DecidableEq, Repr

/-- A search hit as consumed by `make_items_from_places`: the two id keys
it reads (each possibly absent). -/
structure PlaceRef where
  id : Option String
  placeId : Option String
deriving DecidableEq, Repr

/-- Parsed body of a search response: the `places` list (absent modelled
as `[]`, matching `data.get("places", [])`). -/
structure SearchResponse where
  places : List PlaceRef
deriving DecidableEq, Repr

/-- `places_search_text` from the source.  `net` is the HTTP oracle for
`POST` to the search endpoint (the api key travels in headers, which the
oracle abstracts).  The second component of the result is the list of
requests actually issued, so that "no network call is made" is a
statement of the model. -/
def places_search_text (net : String → SearchPayload → HttpResp SearchResponse)
    (api_key query city_key : String) (max_results : Int) :
    Except PlacesError (List PlaceRef) × List SearchPayload :=
  match CITY_PRESETS.lookup (pyLower city_key) with
  | none => (.error (.valueError city_key), [])
  | some preset =>
    let payload : SearchPayload :=
      ⟨query, "ar", preset.regionCode, min max_results 20, preset.lat, preset.lng, preset.radius, "restaurant"⟩
    let r := net api_key payload
    if r.status ≠ 200 then (.error (.httpError "places_search_text" r.status r.text), [payload])
    else (.ok r.json.places, [payload])

/-- `displayName` is a localized-text object with a `text` key. -/
structure LocalizedText where
  text : Option String
deriving DecidableEq, Repr

/-- `currentOpeningHours` object: the `weekdayDescriptions` key. -/
structure OpeningHours where
  weekdayDescriptions : Option (List String)
deriving DecidableEq, Repr

/-- Parsed body of a details response: every field the pipeline reads,
each possibly absent. -/
structure Detail where
  displayName : Option LocalizedText
  formattedAddress : Option String
  nationalPhoneNumber : Option String
  websiteUri : Option String
  googleMapsUri : Option String
  priceLevel : Option Int
  rating : Option ℚ
  userRatingCount : Option Int
  currentOpeningHours : Option OpeningHours
  types : Option (List String)
deriving DecidableEq, Repr

/-- `PLACES_DETAILS_URL_TMPL.format(place_id=...)`. -/
def details_url (place_id : String) : String :=
  "https://places.googleapis.com/v1/places/" ++ place_id

/-- `place_details` from the source: issue the GET (modelled by the oracle
`net`, keyed by api key and url) and fail on a non-200 status. -/
def place_details (net : String → String → HttpResp Detail) (api_key place_id : String) :
    Except PlacesError Detail :=
  let r := net api_key (details_url place_id)
  if r.status ≠ 200 then .error (.httpError "place_details" r.status r.text)
  else .ok r.json

/-! ### Enrichment pipeline (`places_core.py` lines 268-314) -/

/-- `p.get("id") or p.get("placeId")` followed by the `if not pid` guard:
`none` when neither key holds a non-empty string (Python treats both
`None` and `""` as falsy). -/
def refPid (p : PlaceRef) : Option String :=
  let pid := if p.id.getD "" = "" then p.placeId.getD "" else p.id.getD ""
  if pid = "" then none else some pid

/-- Assembly of one normalized item from a fetched detail
(`places_core.py` lines 276-308). -/
def make_item (today_idx : Fin 7) (det : Detail) : Item :=
  let name := (det.displayName.getD ⟨none⟩).text.getD ""
  let address := det.formattedAddress.getD ""
  let phone := det.nationalPhoneNumber.getD ""
  let website := det.websiteUri.getD ""
  let maps_uri := det.googleMapsUri.getD ""
  let types := det.types.getD []
  let ch := det.currentOpeningHours.getD ⟨none⟩
  let weekday_desc := ch.weekdayDescriptions.getD []
  let th := pick_today_hours today_idx weekday_desc
  { name := name
    address := if address = "" then "—" else address
    phone := if phone = "" then "—" else phone
    price_range := map_price_level_to_range det.priceLevel
    website := website
    maps_uri := maps_uri
    today_hours := th.1
    full_hours := th.2
    service_options := guess_service_options types
    family_friendly := "نعم (تقديري)"
    signature_dish := ""
    crowd_note := "8:00 م – 11:00 م (تقديري)"
    rating := det.rating
    rating_count := det.userRatingCount
    types := types }

/-- The enrichment loop of `make_items_from_places`: skip references with
no usable id, fetch details for the rest, abort on the first failed
lookup (the Python `raise` inside the loop). -/
def collect_items (net : String → String → HttpResp Detail) (api_key : String)
    (today_idx : Fin 7) : List PlaceRef → Except PlacesError (List Item)
  | [] => .ok []
  | p :: ps =>
    match refPid p with
    | none => collect_items net api_key today_idx ps
    | some pid =>
      match place_details net api_key pid with
      | .error e => .error e
      | .ok det =>
        match collect_items net api_key today_idx ps with
        | .error e => .error e
        | .ok rest => .ok (make_item today_idx det :: rest)

/-- The sort key `((x.get("rating") or 0), (x.get("rating_count") or 0))`
(Python's `or 0` and `Option.getD 0` agree: both send `None`/`0` to `0`). -/
def itemKey (it : Item) : ℚ × Int := (it.rating.getD 0, it.rating_count.getD 0)

/-- Lexicographic order on sort keys — how Python compares the key tuples. -/
def keyLe (x y : ℚ × Int) : Prop := x.1 < y.1 ∨ (x.1 = y.1 ∧ x.2 ≤ y.2)

instance : DecidableRel keyLe := fun x y => by
  unfold keyLe
  infer_instance

/-- The descending comparison the sort uses: `a` may precede `b` when
`a`'s key is at least `b`'s key. -/
def rdesc (a b : Item) : Prop := keyLe (itemKey b) (itemKey a)

instance : DecidableRel rdesc := fun a b => by
  unfold rdesc
  infer_instance

instance : IsTotal Item rdesc :=
  ⟨fun a b => by
    unfold rdesc keyLe
    rcases lt_trichotomy (itemKey b).1 (itemKey a).1 with h | h | h
    · exact Or.inl (Or.inl h)
    · rcases le_total (itemKey b).2 (itemKey a).2 with h2 | h2
      · exact Or.inl (Or.inr ⟨h, h2⟩)
      · exact Or.inr (Or.inr ⟨h.symm, h2⟩)
    · exact Or.inr (Or.inl h)⟩

instance : IsTrans Item rdesc :=
  ⟨fun a b c hab hbc => by
    unfold rdesc keyLe at hab hbc ⊢
    rcases hbc with h1 | ⟨h1, h1'⟩ <;> rcases hab with h2 | ⟨h2, h2'⟩
    · exact Or.inl (lt_trans h1 h2)
    · exact Or.inl (h2 ▸ h1)
    · exact Or.inl (h1 ▸ h2)
    · exact Or.inr ⟨h1.trans h2, le_trans h1' h2'⟩⟩

/-- `items.sort(key=..., reverse=True)`: Python's sort is stable and
`reverse=True` gives the descending order with ties kept in original
order; a stable insertion sort on the relation "key of the left element
is at least the key of the right one" produces exactly that list. -/
def sort_items (l : List Item) : List Item :=
  l.insertionSort rdesc

/-- The review-count filter `(it.get("rating_count") or 0) >= min_reviews`. -/
def reviews_ok (min_reviews : Int) (it : Item) : Bool :=
  decide (min_reviews ≤ it.rating_count.getD 0)

/-- `make_items_from_places` from the source: enrich every usable search
hit, then filter by the review threshold and sort by the descending key. -/
def make_items_from_places (net : String → String → HttpResp Detail) (api_key : String)
    (today_idx : Fin 7) (places : List PlaceRef) (min_reviews : Int) :
    Except PlacesError (List Item) :=
  match collect_items net api_key today_idx places with
  | .error e => .error e
  | .ok items => .ok (sort_items (items.filter (reviews_ok min_reviews)))

/-! ### Decomposition of the card template around embedded fields -/

/-- The card template's constant head, up to where the escaped name is
embedded. -/
def item_card_pre : String :=
  "\n<div class=\"restaurant-card\" itemscope itemtype=\"https://schema.org/Restaurant\" dir=\"rtl\" style=\"border:1px solid #e5e7eb;border-radius:12px;padding:16px;margin-bottom:16px;\">\n  <h3 itemprop=\"name\" style=\"margin:0 0 8px 0;font-size:20px;\">"

/-- The card template's tail after the embedded name.  It reads every
field of `p` except `name`. -/
def item_card_post (p : Item) : String :=
  let address := html_escape p.address
  let phone := html_escape p.phone
  let price_range := html_escape p.price_range
  let website := p.website
  let maps_uri := p.maps_uri
  let today_hours := html_escape p.today_hours
  let service_str := if p.service_options.isEmpty then "—" else String.intercalate "، " p.service_options
  let family := html_escape p.family_friendly
  let signature := if p.signature_dish = "" then "—" else html_escape p.signature_dish
  let crowd := html_escape p.crowd_note
  let rating_html :=
    match p.rating, p.rating_count with
    | some r, some rc =>
        "<div class=\"text-sm\" style=\"color:#6b7280;\">التقييم: " ++ formatFix1 r ++
          " / 5 (بناءً على " ++ toString rc ++ " مراجعة)</div>"
    | _, _ => ""
  let website_html :=
    if website = "" then "—"
    else "<a href=\"" ++ website ++ "\" target=\"_blank\" rel=\"nofollow noopener\">زيارة الموقع</a>"
  let maps_html :=
    if maps_uri = "" then "—"
    else "<a href=\"" ++ maps_uri ++ "\" target=\"_blank\" rel=\"nofollow noopener\">فتح في خرائط Google</a>"
  let hours_details :=
    if p.full_hours.isEmpty then ""
    else
      "\n<details>\n  <summary>أوقات العمل (الأسبوع كامل)</summary>\n  <ul>\n    " ++
        String.join (p.full_hours.map (fun line => "<li>" ++ html_escape line ++ "</li>")) ++
        "\n  </ul>\n</details>\n"
  "</h3>\n  " ++ rating_html ++
    "\n  <div style=\"line-height:1.9;\">\n    <div><strong>العنوان:</strong> <span itemprop=\"address\">" ++ address ++
    "</span></div>\n    <div><strong>الهاتف:</strong> <a href=\"tel:" ++ phone ++ "\">" ++ phone ++
    "</a></div>\n    <div><strong>الأوقات (اليوم):</strong> " ++ today_hours ++
    "</div>\n    " ++ hours_details ++
    "\n    <div><strong>مناسب للعوائل:</strong> " ++ family ++
    "</div>\n    <div><strong>السعر للشخص:</strong> " ++ price_range ++
    "</div>\n    <div><strong>الطبق المميز:</strong> " ++ signature ++
    "</div>\n    <div><strong>خيارات الخدمة:</strong> " ++ service_str ++
    "</div>\n    <div><strong>أوقات الزحمة:</strong> " ++ crowd ++
    "</div>\n    <div><strong>خرائط Google:</strong> " ++ maps_html ++
    "</div>\n    <div><strong>الموقع الإلكتروني:</strong> " ++ website_html ++
    "</div>\n  </div>\n</div>\n"

/-- The rendered card for `sample_url_item`, up to its website anchor. -/
def sample_card_before_anchor : String :=
  "\n<div class=\"restaurant-card\" itemscope itemtype=\"https://schema.org/Restaurant\" dir=\"rtl\" style=\"border:1px solid #e5e7eb;border-radius:12px;padding:16px;margin-bottom:16px;\">\n  <h3 itemprop=\"name\" style=\"margin:0 0 8px 0;font-size:20px;\">X</h3>\n  \n  <div style=\"line-height:1.9;\">\n    <div><strong>العنوان:</strong> <span itemprop=\"address\">—</span></div>\n    <div><strong>الهاتف:</strong> <a href=\"tel:—\">—</a></div>\n    <div><strong>الأوقات (اليوم):</strong> —</div>\n    \n    <div><strong>مناسب للعوائل:</strong> —</div>\n    <div><strong>السعر للشخص:</strong> غير محدد</div>\n    <div><strong>الطبق المميز:</strong> —</div>\n    <div><strong>خيارات الخدمة:</strong> —</div>\n    <div><strong>أوقات الزحمة:</strong> —</div>\n    <div><strong>خرائط Google:</strong> —</div>\n    <div><strong>الموقع الإلكتروني:</strong> "

/-- The rendered card for `sample_url_item`, after its website anchor. -/
def sample_card_after_anchor : String := "</div>\n  </div>\n</div>\n"

/-! ### Concrete sample data used to instantiate the theorems -/

/-- A detail record with every field absent. -/
def sample_detail_empty : Detail :=
  ⟨none, none, none, none, none, none, none, none, none, none⟩

/-- A detail record with rating 4.5 and 300 reviews. -/
def sample_detail_rated : Detail :=
  ⟨some ⟨some "مطعم البرج"⟩, none, none, none, none, none, some (9/2), some 300, none, none⟩

/-- An HTTP oracle whose every details response is 200 with `sample_detail_rated`. -/
def sample_net_ok : String → String → HttpResp Detail :=
  fun _ _ => ⟨200, "", sample_detail_rated⟩

/-- An HTTP oracle whose every details response is a 500 failure. -/
def sample_net_fail : String → String → HttpResp Detail :=
  fun _ _ => ⟨500, "boom", sample_detail_empty⟩

/-- A search hit with a usable id. -/
def sample_ref : PlaceRef := ⟨some "a", none⟩

/-- An item whose `website` holds markup-significant characters. -/
def sample_url_item : Item :=
  { name := "X", address := "—", phone := "—", price_range := "غير محدد",
    website := "https://ex.test/?a=1&b=\"q\"", maps_uri := "",
    today_hours := "—", full_hours := [], service_options := [],
    family_friendly := "—", signature_dish := "", crowd_note := "—",
    rating := none, rating_count := none, types := [] }

end PlacesCore

namespace PlacesCore

/-! ### Claim theorems -/

/-- Claim C4: `map_price_level_to_range` is total, sending absent and `0`
to the "unspecified" string, `1`/`2`/`3` to the three brackets, every
level `≥ 4` to the open-ended top bracket, and every other (negative)
integer to the "unspecified" string. -/
theorem claim_C4_price_level :
    map_price_level_to_range none = "غير محدد" ∧
    map_price_level_to_range (some 0) = "غير محدد" ∧
    map_price_level_to_range (some 1) = "25 – 50 ر.س" ∧
    map_price_level_to_range (some 2) = "50 – 75 ر.س" ∧
    map_price_level_to_range (some 3) = "75 – 120 ر.س" ∧
    (∀ n : Int, 4 ≤ n → map_price_level_to_range (some n) = "120+ ر.س") ∧
    (∀ n : Int, n < 0 → map_price_level_to_range (some n) = "غير محدد") := by
  refine ⟨rfl, by decide, by decide, by decide, by decide, ?_, ?_⟩
  · intro n hn
    simp only [map_price_level_to_range]
    rw [if_neg (by omega), if_neg (by omega), if_neg (by omega), if_neg (by omega), if_pos hn]
  · intro n hn
    simp only [map_price_level_to_range]
    rw [if_neg (by omega), if_neg (by omega), if_neg (by omega), if_neg (by omega),
      if_neg (by omega)]

/-- Witness for C4 at levels `7` and `-2`. -/
theorem claim_C4_price_level_witness :
    map_price_level_to_range (some 7) = "120+ ر.س" ∧
    map_price_level_to_range (some (-2)) = "غير محدد" :=
  ⟨claim_C4_price_level.2.2.2.2.2.1 7 (by decide),
   claim_C4_price_level.2.2.2.2.2.2 (-2) (by decide)⟩

lemma dropWhile_until_colon (cs tl : List Char) (h : ':' ∉ cs) :
    (cs ++ ':' :: tl).dropWhile (fun c => c ≠ ':') = ':' :: tl := by
  induction cs with
  | nil => simp [List.dropWhile]
  | cons c rest ih =>
    have hc : c ≠ ':' := fun hcc => h (hcc ▸ List.mem_cons_self c rest)
    have ih2 := ih (fun hm => h (List.mem_cons_of_mem c hm))
    simpa [List.dropWhile, hc] using ih2

lemma afterFirstColon_append (a b : String) (ha : ':' ∉ a.data) :
    afterFirstColon (a ++ ":" ++ b) = b := by
  have hdata : (a ++ ":" ++ b).data = a.data ++ ':' :: b.data := by
    simp [String.data_append]
  unfold afterFirstColon
  rw [hdata, dropWhile_until_colon a.data b.data ha]
  cases b
  rfl

lemma contains_colon_append (a b : String) : (a ++ ":" ++ b).data.contains ':' = true := by
  have : ':' ∈ (a ++ ":" ++ b).data := by
    simp [String.data_append]
  exact List.elem_eq_true_of_mem this

/-- Claim C10: whenever the input contains a colon, `normalize_time_string`
discards everything up to and including the first colon and applies the
AM/PM and dash replacements to the (stripped) remainder — even when that
colon belongs to a time rather than a label, so the label-free input
`"9:00 AM - 5:00 PM"` loses its leading hour digits. -/
theorem claim_C10_colon_split :
    (∀ a b : String, ':' ∉ a.data →
      normalize_time_string (a ++ ":" ++ b) = applyTimeReplacements (pyStrip b)) ∧
    normalize_time_string "9:00 AM - 5:00 PM" = "00 ص – 5:00 م" := by
  constructor
  · intro a b ha
    unfold normalize_time_string
    rw [contains_colon_append, if_pos rfl, afterFirstColon_append a b ha]
  · decide

/-- Witness for C10 at the label-free split `"9" ++ ":" ++ "00 AM - 5:00 PM"`. -/
theorem claim_C10_colon_split_witness :
    normalize_time_string ("9" ++ ":" ++ "00 AM - 5:00 PM") =
      applyTimeReplacements (pyStrip "00 AM - 5:00 PM") :=
  claim_C10_colon_split.1 "9" "00 AM - 5:00 PM" (by decide)

/-- Counterexample to C5 as stated: on Monday (`today_idx = 0`) with the
single line `"Monday: 9:00 AM - 5:00 PM"`, the first component is not the
extracted-and-normalized line — the code prefixes it with the localized
weekday name and a `": "` separator. -/
theorem claim_C5_counterexample :
    pick_today_hours (0 : Fin 7) ["Monday: 9:00 AM - 5:00 PM"] =
      ("الاثنين: 9:00 ص – 5:00 م", ["الاثنين: 9:00 ص – 5:00 م"]) ∧
    (pick_today_hours (0 : Fin 7) ["Monday: 9:00 AM - 5:00 PM"]).1 ≠
      normalize_time_string "Monday: 9:00 AM - 5:00 PM" := by
  constructor
  · decide
  · decide

/-- Claim C5 (amended): for a non-empty list, the first component is the
current weekday's localized name, a `": "` separator, and the current
weekday's line normalized (falling back to the entry at index 0 when the
weekday index is beyond the list's length); the second component has
exactly one entry per input line, entry `i` being the weekday name at
index `i` (index 0's name for `i ≥ 7`), `": "`, and that line normalized;
for the empty list the result is the placeholder `"—"` and an empty list. -/
theorem claim_C5_amended (today_idx : Fin 7) (l : List String) (h : l ≠ []) :
    (pick_today_hours today_idx l).1 =
      AR_WEEKDAYS.getD today_idx.val "" ++ ": " ++
        normalize_time_string (if today_idx.val < l.length then l.getD today_idx.val ""
          else l.getD 0 "") ∧
    (pick_today_hours today_idx l).2.length = l.length ∧
    (∀ i : Nat, i < l.length →
      (pick_today_hours today_idx l).2.getD i "" =
        AR_WEEKDAYS.getD (if i < 7 then i else 0) "" ++ ": " ++
          normalize_time_string (l.getD i "")) ∧
    pick_today_hours today_idx [] = ("—", []) := by
  have hne : l.isEmpty = false := by
    cases l with
    | nil => exact absurd rfl h
    | cons a l => rfl
  refine ⟨?_, ?_, ?_, rfl⟩
  · simp only [pick_today_hours, hne, Bool.false_eq_true, if_false]
  · simp only [pick_today_hours, hne, Bool.false_eq_true, if_false]
    simp [List.enum_length]
  · intro i hi
    simp only [pick_today_hours, hne, Bool.false_eq_true, if_false]
    have hlen : (l.enum.map (fun pr =>
        (AR_WEEKDAYS.getD (if pr.1 < AR_WEEKDAYS.length then pr.1 else 0) "") ++ ": " ++
          normalize_time_string pr.2)).length = l.length := by
      simp [List.enum_length]
    rw [List.getD_eq_getElem?_getD, List.getElem?_map]
    have henum : l.enum[i]? = some (i, l[i]) := by
      rw [List.getElem?_eq_getElem (by simpa [List.enum_length] using hi)]
      simp [List.getElem_enum]
    rw [henum]
    simp only [Option.map_some', Option.getD_some]
    have : l[i] = l.getD i "" := by
      rw [List.getD_eq_getElem?_getD, List.getElem?_eq_getElem hi]
      rfl
    rw [this]
    rfl

/-- Witness for C5 (amended) on Tuesday with a two-line list. -/
theorem claim_C5_amended_witness :
    (pick_today_hours (1 : Fin 7) ["a", "b"]).1 = "الثلاثاء: b" := by
  have hmain := claim_C5_amended (1 : Fin 7) ["a", "b"] (by decide)
  rw [hmain.1]
  decide

/-- Claim C8: a `city_key` that does not resolve against `CITY_PRESETS`
makes `places_search_text` fail with the `ValueError` and issue no
request at all (the trace of issued requests is empty), for every oracle. -/
theorem claim_C8_unresolved_city (net : String → SearchPayload → HttpResp SearchResponse)
    (api_key query city_key : String) (max_results : Int)
    (h : CITY_PRESETS.lookup (pyLower city_key) = none) :
    places_search_text net api_key query city_key max_results =
      (.error (.valueError city_key), []) := by
  unfold places_search_text
  rw [h]

/-- Witness for C8 at the unsupported key `"london"`. -/
theorem claim_C8_unresolved_city_witness :
    places_search_text (fun _ _ => ⟨200, "", ⟨[]⟩⟩) "k" "q" "london" 15 =
      (.error (.valueError "london"), []) :=
  claim_C8_unresolved_city (fun _ _ => ⟨200, "", ⟨[]⟩⟩) "k" "q" "london" 15 (by decide)

lemma contains_of_perm (l₁ l₂ : List String) (h : l₁.Perm l₂) (s : String) :
    (l₁.map pyLower).contains s = (l₂.map pyLower).contains s := by
  have hp : (l₁.map pyLower).Perm (l₂.map pyLower) := h.map pyLower
  have hmemiff : s ∈ l₁.map pyLower ↔ s ∈ l₂.map pyLower := hp.mem_iff
  simp only [List.contains, List.elem_eq_mem]
  simp [hmemiff]

/-- Claim C7: `guess_service_options` is invariant under permutation of
the input tags, always returns a sublist of the fixed priority list
(delivery, takeaway, dine-in, in that order), matches tags only through
their lowercasing, and returns the empty list when no known tag is
present. -/
theorem claim_C7_service_options :
    (∀ l₁ l₂ : List String, l₁.Perm l₂ →
      guess_service_options l₁ = guess_service_options l₂) ∧
    (∀ l : List String,
      List.Sublist (guess_service_options l) ["توصيل", "استلام", "جلوس في المطعم"]) ∧
    (∀ l₁ l₂ : List String, l₁.map pyLower = l₂.map pyLower →
      guess_service_options l₁ = guess_service_options l₂) ∧
    (∀ l : List String,
      (∀ t ∈ l, pyLower t ∉ (["meal_delivery", "meal_takeaway", "meal_take-away", "restaurant"] : List String)) →
      guess_service_options l = []) := by
  refine ⟨?_, ?_, ?_, ?_⟩
  · intro l₁ l₂ h
    simp only [guess_service_options]
    rw [contains_of_perm l₁ l₂ h "meal_delivery", contains_of_perm l₁ l₂ h "meal_takeaway",
      contains_of_perm l₁ l₂ h "meal_take-away", contains_of_perm l₁ l₂ h "restaurant"]
  · intro l
    simp only [guess_service_options]
    split_ifs <;> decide
  · intro l₁ l₂ h
    simp only [guess_service_options]
    rw [h]
  · intro l h
    have hc : ∀ s : String, s ∈ (["meal_delivery", "meal_takeaway", "meal_take-away", "restaurant"] : List String) →
        (l.map pyLower).contains s = false := by
      intro s hs
      simp only [List.contains, List.elem_eq_mem, decide_eq_false_iff_not]
      intro hmem
      obtain ⟨t, ht, rfl⟩ := List.mem_map.1 hmem
      exact h t ht hs
    simp only [guess_service_options]
    rw [hc "meal_delivery" (by decide), hc "meal_takeaway" (by decide),
      hc "meal_take-away" (by decide), hc "restaurant" (by decide)]
    rfl

/-- Claim C1: every item of a successful `make_items_from_places` run has
`rating_count` (absent treated as 0) at least `min_reviews`. -/
theorem claim_C1_min_reviews_filter (net : String → String → HttpResp Detail)
    (api_key : String) (today_idx : Fin 7) (places : List PlaceRef) (min_reviews : Int)
    (out : List Item)
    (h : make_items_from_places net api_key today_idx places min_reviews = .ok out) :
    ∀ it ∈ out, min_reviews ≤ it.rating_count.getD 0 := by
  unfold make_items_from_places at h
  cases hc : collect_items net api_key today_idx places with
  | error e => rw [hc] at h; cases h
  | ok items =>
    rw [hc] at h
    injection h with h
    subst h
    intro it hit
    unfold sort_items at hit
    have hmem : it ∈ items.filter (reviews_ok min_reviews) :=
      (List.mem_insertionSort rdesc).1 hit
    have hok : reviews_ok min_reviews it = true := (List.mem_filter.1 hmem).2
    unfold reviews_ok at hok
    exact of_decide_eq_true hok

/-- Witness for C1: a run keeping one item with 300 reviews over a
threshold of 200. -/
theorem claim_C1_min_reviews_filter_witness :
    (200 : Int) ≤ (make_item (0 : Fin 7) sample_detail_rated).rating_count.getD 0 :=
  claim_C1_min_reviews_filter sample_net_ok "k" 0 [sample_ref] 200
    [make_item 0 sample_detail_rated] rfl
    (make_item 0 sample_detail_rated) (List.mem_singleton.2 rfl)

lemma keyLe_refl (x : ℚ × Int) : keyLe x x := Or.inr ⟨rfl, le_refl _⟩

lemma filter_orderedInsert_key (a : Item) (k : ℚ × Int) :
    ∀ l : List Item,
      (List.orderedInsert rdesc a l).filter (fun x => decide (itemKey x = k)) =
        if itemKey a = k then a :: l.filter (fun x => decide (itemKey x = k))
        else l.filter (fun x => decide (itemKey x = k))
  | [] => by
      by_cases hk : itemKey a = k <;> simp [List.orderedInsert, List.filter_cons, hk]
  | b :: l => by
      by_cases hr : rdesc a b
      · rw [List.orderedInsert, if_pos hr]
        by_cases hk : itemKey a = k <;> simp [List.filter_cons, hk]
      · rw [List.orderedInsert, if_neg hr]
        have ih := filter_orderedInsert_key a k l
        by_cases hk : itemKey a = k
        · have hbk : itemKey b ≠ k := by
            intro hbk
            apply hr
            unfold rdesc
            rw [hbk, ← hk]
            exact keyLe_refl _
          simp [List.filter_cons, hk, hbk, ih]
        · simp [List.filter_cons, hk, ih]

lemma sort_items_filter_key (k : ℚ × Int) :
    ∀ l : List Item,
      (sort_items l).filter (fun x => decide (itemKey x = k)) =
        l.filter (fun x => decide (itemKey x = k))
  | [] => rfl
  | a :: l => by
      have ih := sort_items_filter_key k l
      unfold sort_items at ih ⊢
      rw [List.insertionSort, filter_orderedInsert_key]
      by_cases hk : itemKey a = k <;> simp [List.filter_cons, hk, ih]

/-- Claim C2: a successful run's output is sorted so that each adjacent
pair descends (lexicographically on the key `(rating, rating_count)`,
absent treated as 0), and the sort is stable: among items of any one key,
the output preserves the relative order of the enriched, filtered input. -/
theorem claim_C2_sorted_stable (net : String → String → HttpResp Detail)
    (api_key : String) (today_idx : Fin 7) (places : List PlaceRef) (min_reviews : Int)
    (items : List Item)
    (h : collect_items net api_key today_idx places = .ok items) :
    ∃ out, make_items_from_places net api_key today_idx places min_reviews = .ok out ∧
      List.Chain' (fun a b => keyLe (itemKey b) (itemKey a)) out ∧
      ∀ k : ℚ × Int, out.filter (fun x => decide (itemKey x = k)) =
        (items.filter (reviews_ok min_reviews)).filter (fun x => decide (itemKey x = k)) := by
  refine ⟨sort_items (items.filter (reviews_ok min_reviews)), ?_, ?_, ?_⟩
  · unfold make_items_from_places
    rw [h]
  · have hs : List.Sorted rdesc (sort_items (items.filter (reviews_ok min_reviews))) := by
      unfold sort_items
      exact List.sorted_insertionSort rdesc _
    exact List.Pairwise.chain' hs
  · intro k
    exact sort_items_filter_key k _

/-- Witness for C2 on a one-hit run. -/
theorem claim_C2_sorted_stable_witness :
    ∃ out, make_items_from_places sample_net_ok "k" 0 [sample_ref] 200 = .ok out ∧
      List.Chain' (fun a b => keyLe (itemKey b) (itemKey a)) out ∧
      ∀ k : ℚ × Int, out.filter (fun x => decide (itemKey x = k)) =
        (([make_item 0 sample_detail_rated]).filter (reviews_ok 200)).filter
          (fun x => decide (itemKey x = k)) :=
  claim_C2_sorted_stable sample_net_ok "k" 0 [sample_ref] 200 [make_item 0 sample_detail_rated]
    rfl

/-- Claim C3: if the detail lookup for some reference with a usable id
fails (every earlier usable lookup having succeeded), the entire
`make_items_from_places` run returns that error — no partial item list. -/
theorem claim_C3_error_propagates (net : String → String → HttpResp Detail)
    (api_key : String) (today_idx : Fin 7) (pre : List PlaceRef) (p : PlaceRef)
    (post : List PlaceRef) (min_reviews : Int) (pid : String) (e : PlacesError)
    (hpid : refPid p = some pid)
    (herr : place_details net api_key pid = .error e)
    (hpre : ∀ q ∈ pre, ∀ qid, refPid q = some qid →
      ∃ d, place_details net api_key qid = .ok d) :
    make_items_from_places net api_key today_idx (pre ++ p :: post) min_reviews = .error e := by
  suffices hcol : collect_items net api_key today_idx (pre ++ p :: post) = .error e by
    unfold make_items_from_places
    rw [hcol]
  induction pre with
  | nil =>
    simp only [List.nil_append, collect_items, hpid, herr]
  | cons q pre ih =>
    have ih2 := ih (fun q' hq' qid hq'id => hpre q' (List.mem_cons_of_mem q hq') qid hq'id)
    simp only [List.cons_append, collect_items]
    cases hrq : refPid q with
    | none => simpa only [hrq] using ih2
    | some qid =>
      obtain ⟨d, hd⟩ := hpre q (List.mem_cons_self q pre) qid hrq
      simp only [hrq, hd, List.append_eq, ih2]

/-- Witness for C3: a lone reference whose lookup answers HTTP 500. -/
theorem claim_C3_error_propagates_witness :
    make_items_from_places sample_net_fail "k" 0 [sample_ref] 0 =
      .error (.httpError "place_details" 500 "boom") :=
  claim_C3_error_propagates sample_net_fail "k" 0 [] sample_ref [] 0 "a"
    (.httpError "place_details" 500 "boom") rfl rfl
    (fun q hq => absurd hq (List.not_mem_nil q))

lemma lt_not_mem_escapeChar (c : Char) : '<' ∉ (escapeChar c).data := by
  unfold escapeChar
  split_ifs with h1 h2 h3 h4 h5
  · decide
  · decide
  · decide
  · decide
  · decide
  · show '<' ∉ [c]
    intro h
    exact h2 ((List.mem_singleton.1 h).symm)

lemma gt_not_mem_escapeChar (c : Char) : '>' ∉ (escapeChar c).data := by
  unfold escapeChar
  split_ifs with h1 h2 h3 h4 h5
  · decide
  · decide
  · decide
  · decide
  · decide
  · show '>' ∉ [c]
    intro h
    exact h3 ((List.mem_singleton.1 h).symm)

lemma count_escapeChars_zero (c0 : Char) (h : ∀ c, c0 ∉ (escapeChar c).data) :
    ∀ l : List Char, (escapeChars l).count c0 = 0
  | [] => rfl
  | c :: rest => by
      have ih := count_escapeChars_zero c0 h rest
      have hc : (escapeChar c).data.count c0 = 0 := List.count_eq_zero.2 (h c)
      rw [escapeChars, List.count_append, hc, ih]

/-- Claim C6: the rendered card embeds the escaped name between a
constant prefix and a name-free suffix, and the escaping turns `<` into
`&lt;` and `&` into `&amp;`, so the escaped text never contains a raw
`<` or `>` — the raw markup of a hostile name can never reach the
document. -/
theorem claim_C6_name_escaped :
    (∀ p : Item, build_html_item p = item_card_pre ++ html_escape p.name ++ item_card_post p) ∧
    escapeChar '<' = "&lt;" ∧
    escapeChar '&' = "&amp;" ∧
    (∀ s : String, (html_escape s).data.count '<' = 0) ∧
    (∀ s : String, (html_escape s).data.count '>' = 0) := by
  refine ⟨?_, by decide, by decide, ?_, ?_⟩
  · intro p
    simp only [build_html_item, item_card_pre, item_card_post, String.append_assoc]
  · intro s
    exact count_escapeChars_zero '<' lt_not_mem_escapeChar s.data
  · intro s
    exact count_escapeChars_zero '>' gt_not_mem_escapeChar s.data

set_option maxRecDepth 100000 in
/-- Claim C9: for `sample_url_item`, whose website URL contains `"` and
`&`, the rendered card embeds the URL verbatim (unescaped) inside the
anchor's `href` attribute, even though `html_escape` would have changed
it. -/
theorem claim_C9_url_not_escaped :
    build_html_item sample_url_item =
      sample_card_before_anchor ++
        ("<a href=\"" ++ sample_url_item.website ++
          "\" target=\"_blank\" rel=\"nofollow noopener\">زيارة الموقع</a>") ++
        sample_card_after_anchor ∧
    sample_url_item.website.data.contains '"' = true ∧
    sample_url_item.website.data.contains '&' = true ∧
    html_escape sample_url_item.website ≠ sample_url_item.website := by
  refine ⟨by decide, by decide, by decide, by decide⟩

/-- Witness for C7: a permuted tag list, the fixed order, case
insensitivity, and an unknown-tags input. -/
theorem claim_C7_service_options_witness :
    guess_service_options ["restaurant", "meal_delivery"] =
      guess_service_options ["meal_delivery", "restaurant"] ∧
    List.Sublist (guess_service_options ["restaurant", "meal_delivery"])
      ["توصيل", "استلام", "جلوس في المطعم"] ∧
    guess_service_options ["MEAL_DELIVERY"] = guess_service_options ["meal_delivery"] ∧
    guess_service_options ["cafe", "bakery"] = [] :=
  ⟨claim_C7_service_options.1 ["restaurant", "meal_delivery"] ["meal_delivery", "restaurant"]
      (by decide),
   claim_C7_service_options.2.1 ["restaurant", "meal_delivery"],
   claim_C7_service_options.2.2.1 ["MEAL_DELIVERY"] ["meal_delivery"] (by decide),
   claim_C7_service_options.2.2.2 ["cafe", "bakery"] (by decide)⟩

end PlacesCore
